import Mathlib

/-!
Shallow embedding of `src/dataset.py` (synthetic food-freshness dataset
generator, PPM variant with remaining-shelf-life column).

Python floats are modelled as exact rationals.  Every random draw made by
the program is an explicit parameter of the embedded function:

* `np.random.uniform(lo, hi)` is `uniformSample lo hi u` where `u` is the
  underlying unit draw in `[0,1)`;
* `np.random.normal(loc, scale)` is `normalSample loc scale z` where `z`
  is the underlying standard-normal draw (unconstrained, since a normal
  deviate can take any real value);
* `np.random.rand()` is a unit draw in `[0,1)`.

`np.clip`, Python `int()` (truncation toward zero) and Python
`round(x, 2)` (round half to even at two decimals) are embedded as
`clip`, `pyInt` and `pyRound2`.
-/

/-- `np.clip(x, lo, hi)`. -/
def clip (x lo hi : ℚ) : ℚ := min (max x lo) hi

/-- `np.random.uniform(lo, hi)` expressed through its unit draw `u`. -/
def uniformSample (lo hi u : ℚ) : ℚ := lo + (hi - lo) * u

/-- `np.random.normal(loc=loc, scale=scale)` expressed through its standard
normal draw `z`. -/
def normalSample (loc scale z : ℚ) : ℚ := loc + scale * z

/-- Python `int()` on a float: truncation toward zero. -/
def pyInt (x : ℚ) : ℤ := if 0 ≤ x then ⌊x⌋ else ⌈x⌉

/-- Round to the nearest integer, ties to even (the rounding Python's
`round` applies). -/
def roundHalfToEven (x : ℚ) : ℤ :=
  if Int.fract x < 1/2 then ⌊x⌋
  else if 1/2 < Int.fract x then ⌊x⌋ + 1
  else if ⌊x⌋ % 2 = 0 then ⌊x⌋ else ⌊x⌋ + 1

/-- Python `round(x, 2)`: round to two decimal places, ties to even. -/
def pyRound2 (x : ℚ) : ℚ := (roundHalfToEven (100 * x) : ℚ) / 100

-- --- Configuration (lines 6-16 of dataset.py) ---

def NUM_ROWS : ℕ := 100000
def FRESH_ROWS : ℕ := NUM_ROWS / 2
def BAD_ROWS : ℕ := NUM_ROWS - FRESH_ROWS
def OUTPUT_FILENAME : String := "food_freshness_dataset.csv"
def HEADER : List String :=
  ["MQ135_Analog", "MQ3_Analog", "MiCS5524_Analog", "Output", "RSL_Hours"]

-- --- Sensor constraints, PPM readings (lines 18-37) ---

def MQ135_NH3_FRESH_RANGE : ℚ × ℚ := (0.0, 3.0)
def MQ135_NH3_BAD_RANGE : ℚ × ℚ := (6.0, 15.0)
def CO2_FRESH_RANGE : ℚ × ℚ := (500, 700)
def CO2_BAD_RANGE : ℚ × ℚ := (900, 1200)
def MICS5524_CH4_FRESH_RANGE : ℚ × ℚ := (200, 300)
def MICS5524_CH4_BAD_RANGE : ℚ × ℚ := (400, 600)

/-- One generated row: `[round(nh3_ppm, 2), int(co2_ppm), int(ch4_ppm),
label, rsl_hours]` in header order. -/
structure Row where
  nh3 : ℚ
  co2 : ℤ
  ch4 : ℤ
  output : ℤ
  rsl : ℤ
  deriving Repr, DecidableEq

/-- The row as the 5-element list the Python function returns. -/
def Row.fields (r : Row) : List ℚ :=
  [r.nh3, (r.co2 : ℚ), (r.ch4 : ℚ), (r.output : ℚ), (r.rsl : ℚ)]

/-- The random draws consumed by one call of `generate_fresh_row`:
three uniform base draws, three normal noise draws, one uniform RSL
jitter draw. -/
structure FreshDraws where
  uNh3 : ℚ
  zNh3 : ℚ
  uCo2 : ℚ
  zCo2 : ℚ
  uCh4 : ℚ
  zCh4 : ℚ
  uRsl : ℚ
  deriving Repr

/-- The unit uniform draws of `generate_fresh_row` lie in `[0,1)`. -/
def ValidFreshDraws (d : FreshDraws) : Prop :=
  d.uNh3 ∈ Set.Ico (0 : ℚ) 1 ∧ d.uCo2 ∈ Set.Ico (0 : ℚ) 1 ∧
  d.uCh4 ∈ Set.Ico (0 : ℚ) 1 ∧ d.uRsl ∈ Set.Ico (0 : ℚ) 1

-- generate_fresh_row, lines 39-92

/-- Lines 53-55: `nh3_ppm = np.clip(np.random.normal(loc=nh3_base,
scale=0.3), 0.0, 3.0)` with `nh3_base` uniform on the fresh range. -/
def fresh_nh3_ppm (d : FreshDraws) : ℚ :=
  clip (normalSample
         (uniformSample MQ135_NH3_FRESH_RANGE.1 MQ135_NH3_FRESH_RANGE.2 d.uNh3)
         0.3 d.zNh3)
    MQ135_NH3_FRESH_RANGE.1 MQ135_NH3_FRESH_RANGE.2

/-- Lines 59-61: CO2 fresh sample, scale 20, clipped to the fresh range. -/
def fresh_co2_ppm (d : FreshDraws) : ℚ :=
  clip (normalSample
         (uniformSample CO2_FRESH_RANGE.1 CO2_FRESH_RANGE.2 d.uCo2)
         20 d.zCo2)
    CO2_FRESH_RANGE.1 CO2_FRESH_RANGE.2

/-- Lines 65-67: CH4 fresh sample, scale 10, clipped to the fresh range. -/
def fresh_ch4_ppm (d : FreshDraws) : ℚ :=
  clip (normalSample
         (uniformSample MICS5524_CH4_FRESH_RANGE.1 MICS5524_CH4_FRESH_RANGE.2 d.uCh4)
         10 d.zCh4)
    MICS5524_CH4_FRESH_RANGE.1 MICS5524_CH4_FRESH_RANGE.2

/-- Lines 72-77: the three fresh-range normalizations and their average. -/
def fresh_avg_freshness (d : FreshDraws) : ℚ :=
  ((fresh_nh3_ppm d - MQ135_NH3_FRESH_RANGE.1) /
     (MQ135_NH3_FRESH_RANGE.2 - MQ135_NH3_FRESH_RANGE.1) +
   (fresh_co2_ppm d - CO2_FRESH_RANGE.1) /
     (CO2_FRESH_RANGE.2 - CO2_FRESH_RANGE.1) +
   (fresh_ch4_ppm d - MICS5524_CH4_FRESH_RANGE.1) /
     (MICS5524_CH4_FRESH_RANGE.2 - MICS5524_CH4_FRESH_RANGE.1)) / 3.0

/-- Line 81: `base_rsl = 168 - (avg_freshness * (168 - 24))`. -/
def fresh_base_rsl (d : FreshDraws) : ℚ :=
  168 - fresh_avg_freshness d * (168 - 24)

/-- Line 84: `rsl_hours = int(np.clip(base_rsl + np.random.uniform(-12, 12),
24, 168))`. -/
def fresh_rsl_hours (d : FreshDraws) : ℤ :=
  pyInt (clip (fresh_base_rsl d + uniformSample (-12) 12 d.uRsl) 24 168)

/-- `generate_fresh_row` (lines 39-92). -/
def generate_fresh_row (d : FreshDraws) : Row :=
  { nh3 := pyRound2 (fresh_nh3_ppm d)
    co2 := pyInt (fresh_co2_ppm d)
    ch4 := pyInt (fresh_ch4_ppm d)
    output := 1
    rsl := fresh_rsl_hours d }

/-- The random draws consumed by one call of `generate_bad_row`: the
subtype selector `rand_type`, three uniform base draws, three normal noise
draws, one uniform RSL jitter draw. -/
structure BadDraws where
  randType : ℚ
  uNh3 : ℚ
  zNh3 : ℚ
  uCo2 : ℚ
  zCo2 : ℚ
  uCh4 : ℚ
  zCh4 : ℚ
  uRsl : ℚ
  deriving Repr

/-- The unit uniform draws of `generate_bad_row` lie in `[0,1)`. -/
def ValidBadDraws (d : BadDraws) : Prop :=
  d.randType ∈ Set.Ico (0 : ℚ) 1 ∧ d.uNh3 ∈ Set.Ico (0 : ℚ) 1 ∧
  d.uCo2 ∈ Set.Ico (0 : ℚ) 1 ∧ d.uCh4 ∈ Set.Ico (0 : ℚ) 1 ∧
  d.uRsl ∈ Set.Ico (0 : ℚ) 1

/-- The spoilage-subtype selection of `generate_bad_row` (lines 111, 115,
133, 151): subtype 1 if `rand_type < 0.40`, subtype 2 if
`rand_type < 0.80`, subtype 3 otherwise. -/
def bad_subtype (r : ℚ) : ℕ :=
  if r < 0.40 then 1 else if r < 0.80 then 2 else 3

/-- The `(clip_lo, clip_hi)` pairs applied to (NH3, CO2, CH4) in each
spoilage-subtype branch of `generate_bad_row` (lines 118-119, 123-124,
128-129, 136-137, 141-142, 146-147, 154-155, 159-160, 164-165). -/
def badClipBounds (s : ℕ) : (ℚ × ℚ) × (ℚ × ℚ) × (ℚ × ℚ) :=
  if s = 1 then ((6.5, 15.0), (850, 1050), (300, 500))
  else if s = 2 then ((5.5, 11.0), (900, 1200), (400, 600))
  else ((9.0, 15.0), (950, 1200), (450, 600))

/-- Lines 115-129, Type 1 (40% of bad data): protein
decomposition-dominant; the triple is `(nh3_ppm, co2_ppm, ch4_ppm)`, each
the clipped Gaussian around its uniformly drawn base. -/
def badSensorsType1 (d : BadDraws) : ℚ × ℚ × ℚ :=
  (clip (normalSample (uniformSample 8.0 MQ135_NH3_BAD_RANGE.2 d.uNh3) 0.8 d.zNh3)
     6.5 MQ135_NH3_BAD_RANGE.2,
   clip (normalSample (uniformSample 900 1000 d.uCo2) 25 d.zCo2) 850 1050,
   clip (normalSample (uniformSample 350 450 d.uCh4) 15 d.zCh4) 300 500)

/-- Lines 131-147, Type 2 (40% of bad data): anaerobic
decomposition-dominant. -/
def badSensorsType2 (d : BadDraws) : ℚ × ℚ × ℚ :=
  (clip (normalSample (uniformSample 6.0 10.0 d.uNh3) 0.6 d.zNh3) 5.5 11.0,
   clip (normalSample (uniformSample 950 1150 d.uCo2) 30 d.zCo2) 900 1200,
   clip (normalSample (uniformSample 450 MICS5524_CH4_BAD_RANGE.2 d.uCh4) 20 d.zCh4)
     400 MICS5524_CH4_BAD_RANGE.2)

/-- Lines 149-165, Type 3 (20% of bad data): advanced/severe spoilage. -/
def badSensorsType3 (d : BadDraws) : ℚ × ℚ × ℚ :=
  (clip (normalSample (uniformSample 10.0 MQ135_NH3_BAD_RANGE.2 d.uNh3) 1.0 d.zNh3)
     9.0 MQ135_NH3_BAD_RANGE.2,
   clip (normalSample (uniformSample 1000 CO2_BAD_RANGE.2 d.uCo2) 35 d.zCo2)
     950 CO2_BAD_RANGE.2,
   clip (normalSample (uniformSample 500 MICS5524_CH4_BAD_RANGE.2 d.uCh4) 25 d.zCh4)
     450 MICS5524_CH4_BAD_RANGE.2)

/-- The branch body `generate_bad_row` runs for each subtype number. -/
def badSensorsOfSubtype (s : ℕ) (d : BadDraws) : ℚ × ℚ × ℚ :=
  match s with
  | 1 => badSensorsType1 d
  | 2 => badSensorsType2 d
  | _ => badSensorsType3 d

/-- Lines 111-165 of `generate_bad_row`: the `(nh3_ppm, co2_ppm, ch4_ppm)`
triple produced by the selected spoilage-subtype branch. -/
def bad_sensors (d : BadDraws) : ℚ × ℚ × ℚ :=
  if d.randType < 0.40 then badSensorsType1 d
  else if d.randType < 0.80 then badSensorsType2 d
  else badSensorsType3 d

/-- Line 170: NH3 normalized over the bad range. -/
def bad_nh3_norm (d : BadDraws) : ℚ :=
  ((bad_sensors d).1 - MQ135_NH3_BAD_RANGE.1) /
    (MQ135_NH3_BAD_RANGE.2 - MQ135_NH3_BAD_RANGE.1)

/-- Line 171: CO2 normalized over the bad range. -/
def bad_co2_norm (d : BadDraws) : ℚ :=
  ((bad_sensors d).2.1 - CO2_BAD_RANGE.1) / (CO2_BAD_RANGE.2 - CO2_BAD_RANGE.1)

/-- Line 172: CH4 normalized over the bad range. -/
def bad_ch4_norm (d : BadDraws) : ℚ :=
  ((bad_sensors d).2.2 - MICS5524_CH4_BAD_RANGE.1) /
    (MICS5524_CH4_BAD_RANGE.2 - MICS5524_CH4_BAD_RANGE.1)

/-- Line 175: `avg_spoilage = (nh3_norm + co2_norm + ch4_norm) / 3.0`. -/
def bad_avg_spoilage (d : BadDraws) : ℚ :=
  (bad_nh3_norm d + bad_co2_norm d + bad_ch4_norm d) / 3.0

/-- Line 179: `base_rsl = 23 - (avg_spoilage * 23)`. -/
def bad_base_rsl (d : BadDraws) : ℚ :=
  23 - bad_avg_spoilage d * 23

/-- Line 182: `rsl_hours = int(np.clip(base_rsl + np.random.uniform(-3, 3),
0, 23))`. -/
def bad_rsl_hours (d : BadDraws) : ℤ :=
  pyInt (clip (bad_base_rsl d + uniformSample (-3) 3 d.uRsl) 0 23)

/-- `generate_bad_row` (lines 94-190). -/
def generate_bad_row (d : BadDraws) : Row :=
  { nh3 := pyRound2 (bad_sensors d).1
    co2 := pyInt (bad_sensors d).2.1
    ch4 := pyInt (bad_sensors d).2.2
    output := 0
    rsl := bad_rsl_hours d }

-- main, lines 192-220

/-- Lines 197-205 of `main`: the assembled dataset, `FRESH_ROWS` fresh rows
followed by `BAD_ROWS` bad rows (before shuffling); the draw lists supply
the random state consumed by each call. -/
def datasetOf (fds : List FreshDraws) (bds : List BadDraws) : List Row :=
  fds.map generate_fresh_row ++ bds.map generate_bad_row

/-- The header line written by `csv.writer` from `HEADER`. -/
def headerLine : String := String.intercalate "," HEADER

/-- Renders a rational that is a multiple of `1/100` the way Python's
`str` prints the corresponding two-decimal float (`"2.0"`, `"2.5"`,
`"2.55"`, `"2.05"`). -/
def formatQ2 (q : ℚ) : String :=
  let n : ℤ := ⌊100 * q⌋
  let sign := if n < 0 then "-" else ""
  let m := n.natAbs
  let ip := m / 100
  let fp := m % 100
  if fp % 10 = 0 then sign ++ toString ip ++ "." ++ toString (fp / 10)
  else if fp < 10 then sign ++ toString ip ++ ".0" ++ toString fp
  else sign ++ toString ip ++ "." ++ toString fp

/-- One CSV data line: the five fields in header order, comma-separated,
NH3 as a two-decimal float and the rest as bare integers. -/
def rowToLine (r : Row) : String :=
  String.intercalate ","
    [formatQ2 r.nh3, toString r.co2, toString r.ch4, toString r.output, toString r.rsl]

/-- Lines 213-216: the full content of the output file, one header line
followed by one line per row. -/
def outputLines (data : List Row) : List String :=
  headerLine :: data.map rowToLine

/-- Outcome of the attempt to open and write the output file (the one
external effect of `main`). -/
inductive WriteOutcome where
  | ok : WriteOutcome
  | ioError (cause : String) : WriteOutcome
  deriving Repr, DecidableEq

/-- Lines 196-220 of `main` around the write: the messages printed, given
the shuffled dataset and the outcome of the file write.  The
`try/except IOError` either prints the success messages or prints the
error with its cause and returns. -/
def mainRun (write : List String → WriteOutcome) (data : List Row) : List String :=
  let pre := ["Generating " ++ toString NUM_ROWS ++ " rows of synthetic data...",
              "Writing data to " ++ OUTPUT_FILENAME ++ "..."]
  match write (outputLines data) with
  | .ok =>
      pre ++ ["Done.",
              "Successfully generated " ++ OUTPUT_FILENAME ++ " with " ++
                toString data.length ++ " rows."]
  | .ioError e => pre ++ ["Error writing to file: " ++ e]

/-- Number of rows with label 1 in a row list. -/
def countLabelOne (rs : List Row) : ℕ := rs.countP (fun r => r.output == 1)

/-- The affine map sending 0 to `y0` and 1 to `y1`. -/
def specAffine (y0 y1 t : ℚ) : ℚ := y0 * (1 - t) + y1 * t

/-- The fresh-path RSL pipeline restated from the spec's words: normalize
each sensor over its fresh range, average the three normalized values,
map the average affinely (0 to 168 hours, 1 to 24 hours), add the jitter,
clip to `[24, 168]`, truncate to an integer. -/
def specRslFresh (nh3 co2 ch4 jitter : ℚ) : ℤ :=
  pyInt (clip
    (specAffine 168 24
      (((nh3 - 0.0) / (3.0 - 0.0) + (co2 - 500) / (700 - 500) +
        (ch4 - 200) / (300 - 200)) / 3) + jitter)
    24 168)

/-- The bad-path RSL pipeline restated from the spec's words: normalize
each sensor over its bad range, average, map the average affinely (0 to
23 hours, 1 to 0 hours), add the jitter, clip to `[0, 23]`, truncate to an
integer. -/
def specRslBad (nh3 co2 ch4 jitter : ℚ) : ℤ :=
  pyInt (clip
    (specAffine 23 0
      (((nh3 - 6.0) / (15.0 - 6.0) + (co2 - 900) / (1200 - 900) +
        (ch4 - 400) / (600 - 400)) / 3) + jitter)
    0 23)

-- ---------------------------------------------------------------------
-- Helper lemmas
-- ---------------------------------------------------------------------

lemma le_clip (x lo hi : ℚ) (h : lo ≤ hi) : lo ≤ clip x lo hi :=
  le_min (le_max_right _ _) h

lemma clip_le (x lo hi : ℚ) : clip x lo hi ≤ hi := min_le_right _ _

lemma le_pyInt (x : ℚ) (a : ℤ) (h : (a : ℚ) ≤ x) : a ≤ pyInt x := by
  unfold pyInt
  split_ifs with h0
  · exact Int.le_floor.mpr h
  · have h1 : (a : ℚ) ≤ (⌈x⌉ : ℚ) := le_trans h (Int.le_ceil x)
    exact_mod_cast h1

lemma pyInt_le (x : ℚ) (b : ℤ) (h : x ≤ (b : ℚ)) : pyInt x ≤ b := by
  unfold pyInt
  split_ifs with h0
  · have h1 : (⌊x⌋ : ℚ) ≤ (b : ℚ) := le_trans (Int.floor_le x) h
    exact_mod_cast h1
  · exact Int.ceil_le.mpr h

lemma floor_le_roundHalfToEven (x : ℚ) : ⌊x⌋ ≤ roundHalfToEven x := by
  unfold roundHalfToEven
  split_ifs <;> omega

lemma roundHalfToEven_le_ceil (x : ℚ) : roundHalfToEven x ≤ ⌈x⌉ := by
  have hfc : ⌊x⌋ ≤ ⌈x⌉ := Int.floor_le_ceil x
  have hstep : (1:ℚ)/2 ≤ Int.fract x → ⌊x⌋ + 1 ≤ ⌈x⌉ := by
    intro h
    have hx : (⌊x⌋ : ℚ) < x := by
      have := Int.fract_nonneg x
      unfold Int.fract at h
      linarith
    have := Int.lt_ceil.mpr hx
    omega
  unfold roundHalfToEven
  split_ifs with h1 h2 h3
  · exact hfc
  · exact hstep (le_of_lt h2)
  · exact hfc
  · exact hstep (le_of_not_lt h1)

lemma le_pyRound2 (x : ℚ) (a : ℤ) (h : (a : ℚ) / 100 ≤ x) :
    (a : ℚ) / 100 ≤ pyRound2 x := by
  unfold pyRound2
  have h1 : (a : ℚ) ≤ 100 * x := by linarith
  have h2 : a ≤ ⌊100 * x⌋ := Int.le_floor.mpr h1
  have h3 : a ≤ roundHalfToEven (100 * x) :=
    le_trans h2 (floor_le_roundHalfToEven _)
  have h4 : (a : ℚ) ≤ (roundHalfToEven (100 * x) : ℚ) := by exact_mod_cast h3
  linarith

lemma pyRound2_le (x : ℚ) (b : ℤ) (h : x ≤ (b : ℚ) / 100) :
    pyRound2 x ≤ (b : ℚ) / 100 := by
  unfold pyRound2
  have h1 : 100 * x ≤ (b : ℚ) := by linarith
  have h2 : ⌈100 * x⌉ ≤ b := Int.ceil_le.mpr h1
  have h3 : roundHalfToEven (100 * x) ≤ b :=
    le_trans (roundHalfToEven_le_ceil _) h2
  have h4 : (roundHalfToEven (100 * x) : ℚ) ≤ (b : ℚ) := by exact_mod_cast h3
  linarith

lemma bad_sensors_cases (d : BadDraws) :
    bad_sensors d = badSensorsOfSubtype (bad_subtype d.randType) d := by
  unfold bad_sensors bad_subtype badSensorsOfSubtype
  split_ifs <;> rfl

lemma badSensorsType1_mem (d : BadDraws) :
    (badClipBounds 1).1.1 ≤ (badSensorsType1 d).1 ∧
    (badSensorsType1 d).1 ≤ (badClipBounds 1).1.2 ∧
    (badClipBounds 1).2.1.1 ≤ (badSensorsType1 d).2.1 ∧
    (badSensorsType1 d).2.1 ≤ (badClipBounds 1).2.1.2 ∧
    (badClipBounds 1).2.2.1 ≤ (badSensorsType1 d).2.2 ∧
    (badSensorsType1 d).2.2 ≤ (badClipBounds 1).2.2.2 := by
  unfold badSensorsType1 badClipBounds
  refine ⟨?_, ?_, ?_, ?_, ?_, ?_⟩ <;>
    simp [clip, MQ135_NH3_BAD_RANGE, le_min_iff, min_le_iff, le_max_iff,
      max_le_iff] <;>
    norm_num

lemma badSensorsType2_mem (d : BadDraws) :
    (badClipBounds 2).1.1 ≤ (badSensorsType2 d).1 ∧
    (badSensorsType2 d).1 ≤ (badClipBounds 2).1.2 ∧
    (badClipBounds 2).2.1.1 ≤ (badSensorsType2 d).2.1 ∧
    (badSensorsType2 d).2.1 ≤ (badClipBounds 2).2.1.2 ∧
    (badClipBounds 2).2.2.1 ≤ (badSensorsType2 d).2.2 ∧
    (badSensorsType2 d).2.2 ≤ (badClipBounds 2).2.2.2 := by
  unfold badSensorsType2 badClipBounds
  refine ⟨?_, ?_, ?_, ?_, ?_, ?_⟩ <;>
    simp [clip, MICS5524_CH4_BAD_RANGE, le_min_iff, min_le_iff, le_max_iff,
      max_le_iff] <;>
    norm_num

lemma badSensorsType3_mem (d : BadDraws) :
    (badClipBounds 3).1.1 ≤ (badSensorsType3 d).1 ∧
    (badSensorsType3 d).1 ≤ (badClipBounds 3).1.2 ∧
    (badClipBounds 3).2.1.1 ≤ (badSensorsType3 d).2.1 ∧
    (badSensorsType3 d).2.1 ≤ (badClipBounds 3).2.1.2 ∧
    (badClipBounds 3).2.2.1 ≤ (badSensorsType3 d).2.2 ∧
    (badSensorsType3 d).2.2 ≤ (badClipBounds 3).2.2.2 := by
  unfold badSensorsType3 badClipBounds
  refine ⟨?_, ?_, ?_, ?_, ?_, ?_⟩ <;>
    simp [clip, MQ135_NH3_BAD_RANGE, CO2_BAD_RANGE, MICS5524_CH4_BAD_RANGE,
      le_min_iff, min_le_iff, le_max_iff, max_le_iff] <;>
    norm_num

lemma bad_subtype_eq_one_or_two_or_three (r : ℚ) :
    bad_subtype r = 1 ∨ bad_subtype r = 2 ∨ bad_subtype r = 3 := by
  unfold bad_subtype
  split_ifs <;> simp

lemma badSensorsOfSubtype_one (d : BadDraws) :
    badSensorsOfSubtype 1 d = badSensorsType1 d := rfl

lemma badSensorsOfSubtype_two (d : BadDraws) :
    badSensorsOfSubtype 2 d = badSensorsType2 d := rfl

lemma badSensorsOfSubtype_three (d : BadDraws) :
    badSensorsOfSubtype 3 d = badSensorsType3 d := rfl

lemma bad_sensors_mem (d : BadDraws) :
    (badClipBounds (bad_subtype d.randType)).1.1 ≤ (bad_sensors d).1 ∧
    (bad_sensors d).1 ≤ (badClipBounds (bad_subtype d.randType)).1.2 ∧
    (badClipBounds (bad_subtype d.randType)).2.1.1 ≤ (bad_sensors d).2.1 ∧
    (bad_sensors d).2.1 ≤ (badClipBounds (bad_subtype d.randType)).2.1.2 ∧
    (badClipBounds (bad_subtype d.randType)).2.2.1 ≤ (bad_sensors d).2.2 ∧
    (bad_sensors d).2.2 ≤ (badClipBounds (bad_subtype d.randType)).2.2.2 := by
  rw [bad_sensors_cases d]
  rcases bad_subtype_eq_one_or_two_or_three d.randType with h | h | h <;> rw [h]
  · rw [badSensorsOfSubtype_one]
    exact badSensorsType1_mem d
  · rw [badSensorsOfSubtype_two]
    exact badSensorsType2_mem d
  · rw [badSensorsOfSubtype_three]
    exact badSensorsType3_mem d

lemma fresh_nh3_ppm_mem (d : FreshDraws) :
    0 ≤ fresh_nh3_ppm d ∧ fresh_nh3_ppm d ≤ 3 := by
  unfold fresh_nh3_ppm
  constructor <;>
    simp [clip, MQ135_NH3_FRESH_RANGE, le_min_iff, min_le_iff, le_max_iff,
      max_le_iff] <;>
    norm_num

lemma fresh_co2_ppm_mem (d : FreshDraws) :
    500 ≤ fresh_co2_ppm d ∧ fresh_co2_ppm d ≤ 700 := by
  unfold fresh_co2_ppm
  constructor <;>
    simp [clip, CO2_FRESH_RANGE, le_min_iff, min_le_iff, le_max_iff,
      max_le_iff]
  all_goals norm_num

lemma fresh_ch4_ppm_mem (d : FreshDraws) :
    200 ≤ fresh_ch4_ppm d ∧ fresh_ch4_ppm d ≤ 300 := by
  unfold fresh_ch4_ppm
  constructor <;>
    simp [clip, MICS5524_CH4_FRESH_RANGE, le_min_iff, min_le_iff, le_max_iff,
      max_le_iff]
  all_goals norm_num

lemma fresh_rsl_hours_mem (d : FreshDraws) :
    24 ≤ fresh_rsl_hours d ∧ fresh_rsl_hours d ≤ 168 := by
  unfold fresh_rsl_hours
  constructor
  · refine le_pyInt _ 24 ?_
    have := le_clip (fresh_base_rsl d + uniformSample (-12) 12 d.uRsl) 24 168
      (by norm_num)
    exact_mod_cast this
  · refine pyInt_le _ 168 ?_
    have := clip_le (fresh_base_rsl d + uniformSample (-12) 12 d.uRsl) 24 168
    exact_mod_cast this

lemma bad_rsl_hours_mem (d : BadDraws) :
    0 ≤ bad_rsl_hours d ∧ bad_rsl_hours d ≤ 23 := by
  unfold bad_rsl_hours
  constructor
  · refine le_pyInt _ 0 ?_
    have := le_clip (bad_base_rsl d + uniformSample (-3) 3 d.uRsl) 0 23
      (by norm_num)
    exact_mod_cast this
  · refine pyInt_le _ 23 ?_
    have := clip_le (bad_base_rsl d + uniformSample (-3) 3 d.uRsl) 0 23
    exact_mod_cast this

lemma pyRound2_bounds_num (x lo hi : ℚ) (a b : ℤ) (ha : lo = (a : ℚ) / 100)
    (hb : hi = (b : ℚ) / 100) (h1 : lo ≤ x) (h2 : x ≤ hi) :
    lo ≤ pyRound2 x ∧ pyRound2 x ≤ hi := by
  rw [ha] at h1 ⊢
  rw [hb] at h2 ⊢
  exact ⟨le_pyRound2 x a h1, pyRound2_le x b h2⟩

lemma pyInt_bounds_num (x lo hi : ℚ) (a b : ℤ) (ha : lo = (a : ℚ))
    (hb : hi = (b : ℚ)) (h1 : lo ≤ x) (h2 : x ≤ hi) :
    lo ≤ (pyInt x : ℚ) ∧ (pyInt x : ℚ) ≤ hi := by
  rw [ha] at h1 ⊢
  rw [hb] at h2 ⊢
  constructor
  · exact_mod_cast le_pyInt x a h1
  · exact_mod_cast pyInt_le x b h2

-- ---------------------------------------------------------------------
-- Claim theorems
-- ---------------------------------------------------------------------

/-- C1: every fresh row's sensor fields lie within the fresh clip bounds
(NH3 in [0,3], CO2 in [500,700], CH4 in [200,300]) regardless of the noise
draws, and every bad row's sensor fields lie within the clip bounds of the
spoilage subtype selected for that row (subtype 1: NH3 in [6.5,15], CO2 in
[850,1050], CH4 in [300,500], and analogously for subtypes 2 and 3). -/
theorem generated_rows_within_clip_bounds :
    (∀ d : FreshDraws,
      0 ≤ (generate_fresh_row d).nh3 ∧ (generate_fresh_row d).nh3 ≤ 3 ∧
      500 ≤ (generate_fresh_row d).co2 ∧ (generate_fresh_row d).co2 ≤ 700 ∧
      200 ≤ (generate_fresh_row d).ch4 ∧ (generate_fresh_row d).ch4 ≤ 300) ∧
    (∀ d : BadDraws,
      (badClipBounds (bad_subtype d.randType)).1.1 ≤ (generate_bad_row d).nh3 ∧
      (generate_bad_row d).nh3 ≤ (badClipBounds (bad_subtype d.randType)).1.2 ∧
      (badClipBounds (bad_subtype d.randType)).2.1.1 ≤ ((generate_bad_row d).co2 : ℚ) ∧
      ((generate_bad_row d).co2 : ℚ) ≤ (badClipBounds (bad_subtype d.randType)).2.1.2 ∧
      (badClipBounds (bad_subtype d.randType)).2.2.1 ≤ ((generate_bad_row d).ch4 : ℚ) ∧
      ((generate_bad_row d).ch4 : ℚ) ≤ (badClipBounds (bad_subtype d.randType)).2.2.2) := by
  constructor
  · intro d
    simp only [generate_fresh_row]
    have hn := fresh_nh3_ppm_mem d
    have hc := fresh_co2_ppm_mem d
    have hm := fresh_ch4_ppm_mem d
    have hn2 := pyRound2_bounds_num (fresh_nh3_ppm d) 0 3 0 300 (by norm_num)
      (by norm_num) hn.1 hn.2
    refine ⟨hn2.1, hn2.2, ?_, ?_, ?_, ?_⟩
    · exact le_pyInt _ 500 (by exact_mod_cast hc.1)
    · exact pyInt_le _ 700 (by exact_mod_cast hc.2)
    · exact le_pyInt _ 200 (by exact_mod_cast hm.1)
    · exact pyInt_le _ 300 (by exact_mod_cast hm.2)
  · intro d
    simp only [generate_bad_row]
    have m := bad_sensors_mem d
    rcases bad_subtype_eq_one_or_two_or_three d.randType with h | h | h <;>
      rw [h] at m ⊢
    · have hn := pyRound2_bounds_num _ _ _ 650 1500 (by norm_num [badClipBounds])
        (by norm_num [badClipBounds]) m.1 m.2.1
      have hc := pyInt_bounds_num _ _ _ 850 1050 (by norm_num [badClipBounds])
        (by norm_num [badClipBounds]) m.2.2.1 m.2.2.2.1
      have hm := pyInt_bounds_num _ _ _ 300 500 (by norm_num [badClipBounds])
        (by norm_num [badClipBounds]) m.2.2.2.2.1 m.2.2.2.2.2
      exact ⟨hn.1, hn.2, hc.1, hc.2, hm.1, hm.2⟩
    · have hn := pyRound2_bounds_num _ _ _ 550 1100 (by norm_num [badClipBounds])
        (by norm_num [badClipBounds]) m.1 m.2.1
      have hc := pyInt_bounds_num _ _ _ 900 1200 (by norm_num [badClipBounds])
        (by norm_num [badClipBounds]) m.2.2.1 m.2.2.2.1
      have hm := pyInt_bounds_num _ _ _ 400 600 (by norm_num [badClipBounds])
        (by norm_num [badClipBounds]) m.2.2.2.2.1 m.2.2.2.2.2
      exact ⟨hn.1, hn.2, hc.1, hc.2, hm.1, hm.2⟩
    · have hn := pyRound2_bounds_num _ _ _ 900 1500 (by norm_num [badClipBounds])
        (by norm_num [badClipBounds]) m.1 m.2.1
      have hc := pyInt_bounds_num _ _ _ 950 1200 (by norm_num [badClipBounds])
        (by norm_num [badClipBounds]) m.2.2.1 m.2.2.2.1
      have hm := pyInt_bounds_num _ _ _ 450 600 (by norm_num [badClipBounds])
        (by norm_num [badClipBounds]) m.2.2.2.2.1 m.2.2.2.2.2
      exact ⟨hn.1, hn.2, hc.1, hc.2, hm.1, hm.2⟩

/-- C2: every row's RSL_Hours is an integer in [24,168] when the label is 1
(fresh path) and in [0,23] when the label is 0 (bad path), and the two
ranges are disjoint: no fresh row and bad row ever share an RSL value. -/
theorem rsl_hours_in_disjoint_ranges :
    (∀ d : FreshDraws, (generate_fresh_row d).output = 1 ∧
       24 ≤ (generate_fresh_row d).rsl ∧ (generate_fresh_row d).rsl ≤ 168) ∧
    (∀ d : BadDraws, (generate_bad_row d).output = 0 ∧
       0 ≤ (generate_bad_row d).rsl ∧ (generate_bad_row d).rsl ≤ 23) ∧
    (∀ (df : FreshDraws) (db : BadDraws),
       (generate_fresh_row df).rsl ≠ (generate_bad_row db).rsl) := by
  refine ⟨fun d => ⟨rfl, (fresh_rsl_hours_mem d).1, (fresh_rsl_hours_mem d).2⟩,
          fun d => ⟨rfl, (bad_rsl_hours_mem d).1, (bad_rsl_hours_mem d).2⟩,
          fun df db => ?_⟩
  have h1 := (fresh_rsl_hours_mem df).1
  have h2 := (bad_rsl_hours_mem db).2
  simp only [generate_fresh_row, generate_bad_row]
  omega

/-- C3: the derived RSL field is exactly the spec's pipeline applied to the
clipped sensor values: normalize each sensor over the class's range,
average, map affinely (fresh: 0 to 168h and 1 to 24h; bad: 0 to 23h and 1
to 0h), add the uniform jitter (fresh ±12h, bad ±3h), clip (fresh to
[24,168], bad to [0,23]) and truncate to an integer. -/
theorem rsl_pipeline_matches_spec :
    (∀ d : FreshDraws,
      (generate_fresh_row d).rsl =
        specRslFresh (fresh_nh3_ppm d) (fresh_co2_ppm d) (fresh_ch4_ppm d)
          (uniformSample (-12) 12 d.uRsl)) ∧
    (∀ d : BadDraws,
      (generate_bad_row d).rsl =
        specRslBad (bad_sensors d).1 (bad_sensors d).2.1 (bad_sensors d).2.2
          (uniformSample (-3) 3 d.uRsl)) := by
  constructor
  · intro d
    show fresh_rsl_hours d = _
    unfold fresh_rsl_hours specRslFresh
    have key : fresh_base_rsl d + uniformSample (-12) 12 d.uRsl =
        specAffine 168 24 (((fresh_nh3_ppm d - 0.0) / (3.0 - 0.0) +
          (fresh_co2_ppm d - 500) / (700 - 500) +
          (fresh_ch4_ppm d - 200) / (300 - 200)) / 3) +
        uniformSample (-12) 12 d.uRsl := by
      unfold fresh_base_rsl fresh_avg_freshness specAffine
      norm_num [MQ135_NH3_FRESH_RANGE, CO2_FRESH_RANGE, MICS5524_CH4_FRESH_RANGE]
      try ring
    rw [key]
  · intro d
    show bad_rsl_hours d = _
    unfold bad_rsl_hours specRslBad
    have key : bad_base_rsl d + uniformSample (-3) 3 d.uRsl =
        specAffine 23 0 ((((bad_sensors d).1 - 6.0) / (15.0 - 6.0) +
          ((bad_sensors d).2.1 - 900) / (1200 - 900) +
          ((bad_sensors d).2.2 - 400) / (600 - 400)) / 3) +
        uniformSample (-3) 3 d.uRsl := by
      unfold bad_base_rsl bad_avg_spoilage bad_nh3_norm bad_co2_norm
        bad_ch4_norm specAffine
      norm_num [MQ135_NH3_BAD_RANGE, CO2_BAD_RANGE, MICS5524_CH4_BAD_RANGE]
      try ring
    rw [key]

/-- C4: generate_bad_row selects the spoilage subtype from the single
uniform draw by cumulative thresholds: subtype 1 iff r < 0.40, subtype 2
iff 0.40 <= r < 0.80, subtype 3 otherwise; over the admissible draw
interval [0,1) the subtypes occupy the sub-intervals [0,0.40), [0.40,0.80)
and [0.80,1) of lengths 0.40/0.40/0.20, and the sensor triple is computed
by the branch of the selected subtype. -/
theorem bad_subtype_cumulative_thresholds :
    (∀ r : ℚ,
      (bad_subtype r = 1 ↔ r < 0.40) ∧
      (bad_subtype r = 2 ↔ 0.40 ≤ r ∧ r < 0.80) ∧
      (bad_subtype r = 3 ↔ 0.80 ≤ r)) ∧
    {r : ℚ | bad_subtype r = 1} ∩ Set.Ico 0 1 = Set.Ico 0 0.40 ∧
    {r : ℚ | bad_subtype r = 2} ∩ Set.Ico 0 1 = Set.Ico 0.40 0.80 ∧
    {r : ℚ | bad_subtype r = 3} ∩ Set.Ico 0 1 = Set.Ico 0.80 1 ∧
    (∀ d : BadDraws, bad_sensors d = badSensorsOfSubtype (bad_subtype d.randType) d) := by
  have hiff : ∀ r : ℚ,
      (bad_subtype r = 1 ↔ r < 0.40) ∧
      (bad_subtype r = 2 ↔ 0.40 ≤ r ∧ r < 0.80) ∧
      (bad_subtype r = 3 ↔ 0.80 ≤ r) := by
    intro r
    unfold bad_subtype
    split_ifs with h1 h2 <;>
      refine ⟨⟨fun hh => ?_, fun hh => ?_⟩, ⟨fun hh => ?_, fun hh => ?_⟩,
        ⟨fun hh => ?_, fun hh => ?_⟩⟩ <;>
      first
        | rfl
        | assumption
        | (exfalso; omega)
        | (exfalso; exact h1 hh)
        | (exfalso; exact h2 hh.2)
        | (exfalso; linarith [hh.1, hh.2])
        | (exfalso; linarith)
        | (exact le_of_not_lt h1)
        | (exact le_of_not_lt h2)
        | (exact ⟨le_of_not_lt h1, h2⟩)
  refine ⟨hiff, ?_, ?_, ?_, fun d => bad_sensors_cases d⟩
  · ext r
    simp only [Set.mem_inter_iff, Set.mem_setOf_eq, Set.mem_Ico]
    constructor
    · rintro ⟨hs, h0, -⟩
      exact ⟨h0, (hiff r).1.mp hs⟩
    · rintro ⟨h0, h4⟩
      exact ⟨(hiff r).1.mpr h4, h0, by linarith⟩
  · ext r
    simp only [Set.mem_inter_iff, Set.mem_setOf_eq, Set.mem_Ico]
    constructor
    · rintro ⟨hs, -, -⟩
      exact (hiff r).2.1.mp hs
    · rintro ⟨h4, h8⟩
      exact ⟨(hiff r).2.1.mpr ⟨h4, h8⟩, by linarith, by linarith⟩
  · ext r
    simp only [Set.mem_inter_iff, Set.mem_setOf_eq, Set.mem_Ico]
    constructor
    · rintro ⟨hs, -, h1'⟩
      exact ⟨(hiff r).2.2.mp hs, h1'⟩
    · rintro ⟨h8, h1'⟩
      exact ⟨(hiff r).2.2.mpr h8, by linarith, h1'⟩

/-- C5 counterexample: for spoilage subtype 3 no field's clip floor lies
below its nominal bad lower bound — each subtype-3 clip interval is
contained in the nominal bad range — so the claim's "for every bad
subtype" fails at subtype 3. -/
theorem bad_subtype3_clip_within_nominal :
    (MQ135_NH3_BAD_RANGE.1 ≤ (badClipBounds 3).1.1 ∧
     (badClipBounds 3).1.2 ≤ MQ135_NH3_BAD_RANGE.2) ∧
    (CO2_BAD_RANGE.1 ≤ (badClipBounds 3).2.1.1 ∧
     (badClipBounds 3).2.1.2 ≤ CO2_BAD_RANGE.2) ∧
    (MICS5524_CH4_BAD_RANGE.1 ≤ (badClipBounds 3).2.2.1 ∧
     (badClipBounds 3).2.2.2 ≤ MICS5524_CH4_BAD_RANGE.2) ∧
    ¬ ((badClipBounds 3).1.1 < MQ135_NH3_BAD_RANGE.1 ∨
       (badClipBounds 3).2.1.1 < CO2_BAD_RANGE.1 ∨
       (badClipBounds 3).2.2.1 < MICS5524_CH4_BAD_RANGE.1) := by
  norm_num [badClipBounds, MQ135_NH3_BAD_RANGE, CO2_BAD_RANGE,
    MICS5524_CH4_BAD_RANGE]

/-- C5 (amended): for bad subtypes 1 and 2 — though not subtype 3 — at
least one field's clip floor lies strictly below the nominal bad lower
bound (subtype 1: CO2 clipped down to 850 and CH4 down to 300; subtype 2:
NH3 down to 5.5), and consequently bad-reachable and fresh-reachable
values overlap near the boundary: CH4 = 300 ppm is attained both by a
fresh row and by a subtype-1 bad row under admissible draws. -/
theorem bad_clip_soft_margin_and_overlap :
    ((badClipBounds 1).2.1.1 < CO2_BAD_RANGE.1 ∧
     (badClipBounds 1).2.2.1 < MICS5524_CH4_BAD_RANGE.1) ∧
    (badClipBounds 2).1.1 < MQ135_NH3_BAD_RANGE.1 ∧
    (ValidFreshDraws ⟨0, 0, 0, 0, 0, 100, 0⟩ ∧
     (generate_fresh_row ⟨0, 0, 0, 0, 0, 100, 0⟩).ch4 = 300) ∧
    (ValidBadDraws ⟨0, 0, 0, 0, 0, 0, -100, 0⟩ ∧
     bad_subtype (0 : ℚ) = 1 ∧
     (generate_bad_row ⟨0, 0, 0, 0, 0, 0, -100, 0⟩).ch4 = 300) := by
  refine ⟨⟨?_, ?_⟩, ?_, ⟨?_, ?_⟩, ?_, ?_, ?_⟩
  · norm_num [badClipBounds, CO2_BAD_RANGE]
  · norm_num [badClipBounds, MICS5524_CH4_BAD_RANGE]
  · norm_num [badClipBounds, MQ135_NH3_BAD_RANGE]
  · norm_num [ValidFreshDraws, Set.mem_Ico]
  · norm_num [generate_fresh_row, fresh_ch4_ppm, uniformSample, normalSample,
      clip, pyInt, min_def, max_def, MICS5524_CH4_FRESH_RANGE]
  · norm_num [ValidBadDraws, Set.mem_Ico]
  · norm_num [bad_subtype]
  · norm_num [generate_bad_row, bad_sensors, badSensorsType1, uniformSample,
      normalSample, clip, pyInt, min_def, max_def, MQ135_NH3_BAD_RANGE]

/-- C6: every row returned by generate_fresh_row has its label field (the
fourth list position) exactly 1, and every row returned by
generate_bad_row has it exactly 0, for all random draws. -/
theorem label_field_exact :
    (∀ d : FreshDraws, (generate_fresh_row d).output = 1 ∧
       (generate_fresh_row d).fields.getD 3 0 = 1) ∧
    (∀ d : BadDraws, (generate_bad_row d).output = 0 ∧
       (generate_bad_row d).fields.getD 3 0 = 0) := by
  constructor
  · intro d
    exact ⟨rfl, by norm_num [generate_fresh_row, Row.fields]⟩
  · intro d
    exact ⟨rfl, by norm_num [generate_bad_row, Row.fields]⟩

/-- Fixed draw records used to instantiate the dataset-assembly theorem at
a concrete input. -/
def exampleFreshDraws : FreshDraws := ⟨0, 0, 0, 0, 0, 0, 0⟩

def exampleBadDraws : BadDraws := ⟨0, 0, 0, 0, 0, 0, 0, 0⟩

def exampleDataset : List Row :=
  datasetOf (List.replicate FRESH_ROWS exampleFreshDraws)
    (List.replicate BAD_ROWS exampleBadDraws)

/-- C7: the assembled dataset has length NUM_ROWS, split into
floor(NUM_ROWS/2) fresh-path rows and the remainder bad-path rows; any
shuffle (permutation) of it keeps the count of label-1 rows equal to the
fresh split; the output is one header line — the literal five-column
header — followed by NUM_ROWS comma-separated data lines, whose NH3 field
is a two-decimal value and whose remaining fields are integers. -/
theorem dataset_assembly_and_output_format
    (fds : List FreshDraws) (bds : List BadDraws) (out : List Row)
    (hf : fds.length = FRESH_ROWS) (hb : bds.length = BAD_ROWS)
    (hp : out.Perm (datasetOf fds bds)) :
    (datasetOf fds bds).length = NUM_ROWS ∧
    (fds.map generate_fresh_row).length = NUM_ROWS / 2 ∧
    (bds.map generate_bad_row).length = NUM_ROWS - NUM_ROWS / 2 ∧
    out.length = NUM_ROWS ∧
    countLabelOne out = FRESH_ROWS ∧
    outputLines out = headerLine :: out.map rowToLine ∧
    headerLine = "MQ135_Analog,MQ3_Analog,MiCS5524_Analog,Output,RSL_Hours" ∧
    (outputLines out).length = NUM_ROWS + 1 ∧
    (∀ r ∈ out, ∃ n : ℤ, r.nh3 = (n : ℚ) / 100) := by
  have hFB : FRESH_ROWS + BAD_ROWS = NUM_ROWS := by
    norm_num [FRESH_ROWS, BAD_ROWS, NUM_ROWS]
  have hds : (datasetOf fds bds).length = fds.length + bds.length := by
    simp [datasetOf]
  have hlen : (datasetOf fds bds).length = NUM_ROWS := by
    rw [hds, hf, hb]
    exact hFB
  have hout : out.length = NUM_ROWS := by
    rw [hp.length_eq, hlen]
  have hcount : countLabelOne out = FRESH_ROWS := by
    unfold countLabelOne
    rw [hp.countP_eq]
    unfold datasetOf
    rw [List.countP_append]
    have c1 : (fds.map generate_fresh_row).countP (fun r => r.output == 1) =
        (fds.map generate_fresh_row).length := by
      rw [List.countP_eq_length]
      intro r hr
      rcases List.mem_map.mp hr with ⟨d, -, rfl⟩
      simp [generate_fresh_row]
    have c2 : (bds.map generate_bad_row).countP (fun r => r.output == 1) = 0 := by
      rw [List.countP_eq_zero]
      intro r hr
      rcases List.mem_map.mp hr with ⟨d, -, rfl⟩
      simp [generate_bad_row]
    rw [c1, c2, List.length_map, hf]
    omega
  have hnh3 : ∀ r ∈ out, ∃ n : ℤ, r.nh3 = (n : ℚ) / 100 := by
    intro r hr
    have hr2 : r ∈ fds.map generate_fresh_row ++ bds.map generate_bad_row :=
      hp.mem_iff.mp hr
    rcases List.mem_append.mp hr2 with hrf | hrb
    · rcases List.mem_map.mp hrf with ⟨d, -, rfl⟩
      exact ⟨roundHalfToEven (100 * fresh_nh3_ppm d), rfl⟩
    · rcases List.mem_map.mp hrb with ⟨d, -, rfl⟩
      exact ⟨roundHalfToEven (100 * (bad_sensors d).1), rfl⟩
  refine ⟨hlen, ?_, ?_, hout, hcount, rfl, ?_, ?_, hnh3⟩
  · rw [List.length_map, hf]
    rfl
  · rw [List.length_map, hb]
    rfl
  · rfl
  · simp [outputLines, hout]

/-- Witness for the dataset-assembly theorem: the identity shuffle of the
dataset built from replicated zero draws. -/
theorem dataset_assembly_and_output_format_witness :
    exampleDataset.length = NUM_ROWS ∧
    countLabelOne exampleDataset = FRESH_ROWS ∧
    outputLines exampleDataset = headerLine :: exampleDataset.map rowToLine ∧
    headerLine = "MQ135_Analog,MQ3_Analog,MiCS5524_Analog,Output,RSL_Hours" ∧
    (outputLines exampleDataset).length = NUM_ROWS + 1 := by
  have h := dataset_assembly_and_output_format
    (List.replicate FRESH_ROWS exampleFreshDraws)
    (List.replicate BAD_ROWS exampleBadDraws)
    exampleDataset (by simp) (by simp) (List.Perm.refl _)
  exact ⟨h.2.2.2.1, h.2.2.2.2.1, h.2.2.2.2.2.1, h.2.2.2.2.2.2.1,
    h.2.2.2.2.2.2.2.1⟩

/-- C8: the only failure mode is the file write: if the write raises an
I/O error, mainRun catches it, reports the underlying cause and returns
its message list without re-raising; on success it reports completion; row
generation and assembly are total and never fail for any draws. -/
theorem main_write_failure_handling :
    (∀ (write : List String → WriteOutcome) (data : List Row) (e : String),
       write (outputLines data) = WriteOutcome.ioError e →
       mainRun write data =
         ["Generating " ++ toString NUM_ROWS ++ " rows of synthetic data...",
          "Writing data to " ++ OUTPUT_FILENAME ++ "...",
          "Error writing to file: " ++ e]) ∧
    (∀ (write : List String → WriteOutcome) (data : List Row),
       write (outputLines data) = WriteOutcome.ok →
       mainRun write data =
         ["Generating " ++ toString NUM_ROWS ++ " rows of synthetic data...",
          "Writing data to " ++ OUTPUT_FILENAME ++ "...",
          "Done.",
          "Successfully generated " ++ OUTPUT_FILENAME ++ " with " ++
            toString data.length ++ " rows."]) ∧
    (∀ (fds : List FreshDraws) (bds : List BadDraws),
       (datasetOf fds bds).length = fds.length + bds.length) ∧
    (∀ d : FreshDraws, (generate_fresh_row d).fields.length = 5) ∧
    (∀ d : BadDraws, (generate_bad_row d).fields.length = 5) := by
  refine ⟨?_, ?_, ?_, fun d => rfl, fun d => rfl⟩
  · intro write data e h
    unfold mainRun
    rw [h]
    rfl
  · intro write data h
    unfold mainRun
    rw [h]
    rfl
  · intro fds bds
    simp [datasetOf]

/-- Witness for the error-handling theorem at a concrete failing and a
concrete succeeding write. -/
theorem main_write_failure_handling_witness :
    mainRun (fun _ => WriteOutcome.ioError "disk full") [] =
      ["Generating " ++ toString NUM_ROWS ++ " rows of synthetic data...",
       "Writing data to " ++ OUTPUT_FILENAME ++ "...",
       "Error writing to file: " ++ "disk full"] ∧
    mainRun (fun _ => WriteOutcome.ok) [] =
      ["Generating " ++ toString NUM_ROWS ++ " rows of synthetic data...",
       "Writing data to " ++ OUTPUT_FILENAME ++ "...",
       "Done.",
       "Successfully generated " ++ OUTPUT_FILENAME ++ " with " ++
         toString ([] : List Row).length ++ " rows."] :=
  ⟨main_write_failure_handling.1 (fun _ => WriteOutcome.ioError "disk full")
      [] "disk full" rfl,
   main_write_failure_handling.2.1 (fun _ => WriteOutcome.ok) [] rfl⟩

/-- C9: every normalization division in the fresh and bad RSL pipelines
divides by the width of a fixed constant range — 3.0, 200, 100 on the
fresh path and 9.0, 300, 200 on the bad path — and each width is nonzero,
so no division by zero can occur. -/
theorem normalization_denominators_nonzero :
    (MQ135_NH3_FRESH_RANGE.2 - MQ135_NH3_FRESH_RANGE.1 = 3.0 ∧
     MQ135_NH3_FRESH_RANGE.2 - MQ135_NH3_FRESH_RANGE.1 ≠ 0) ∧
    (CO2_FRESH_RANGE.2 - CO2_FRESH_RANGE.1 = 200 ∧
     CO2_FRESH_RANGE.2 - CO2_FRESH_RANGE.1 ≠ 0) ∧
    (MICS5524_CH4_FRESH_RANGE.2 - MICS5524_CH4_FRESH_RANGE.1 = 100 ∧
     MICS5524_CH4_FRESH_RANGE.2 - MICS5524_CH4_FRESH_RANGE.1 ≠ 0) ∧
    (MQ135_NH3_BAD_RANGE.2 - MQ135_NH3_BAD_RANGE.1 = 9.0 ∧
     MQ135_NH3_BAD_RANGE.2 - MQ135_NH3_BAD_RANGE.1 ≠ 0) ∧
    (CO2_BAD_RANGE.2 - CO2_BAD_RANGE.1 = 300 ∧
     CO2_BAD_RANGE.2 - CO2_BAD_RANGE.1 ≠ 0) ∧
    (MICS5524_CH4_BAD_RANGE.2 - MICS5524_CH4_BAD_RANGE.1 = 200 ∧
     MICS5524_CH4_BAD_RANGE.2 - MICS5524_CH4_BAD_RANGE.1 ≠ 0) := by
  norm_num [MQ135_NH3_FRESH_RANGE, CO2_FRESH_RANGE, MICS5524_CH4_FRESH_RANGE,
    MQ135_NH3_BAD_RANGE, CO2_BAD_RANGE, MICS5524_CH4_BAD_RANGE]

/-- C10: under admissible draws the bad path can clip a sensor below its
nominal bad lower bound (subtype 2 can yield NH3 = 5.5 while the bad range
starts at 6.0), making its normalized term negative, the averaged spoilage
negative (outside [0,1]) and base_rsl exceed 23; yet the final clip keeps
the returned rsl_hours in [0,23] for every draw. -/
theorem bad_norm_negative_but_rsl_clipped :
    (∃ d : BadDraws, ValidBadDraws d ∧ bad_subtype d.randType = 2 ∧
       (bad_sensors d).1 = 5.5 ∧ (bad_sensors d).1 < MQ135_NH3_BAD_RANGE.1 ∧
       bad_nh3_norm d < 0 ∧ bad_avg_spoilage d < 0 ∧ 23 < bad_base_rsl d) ∧
    (∀ d : BadDraws, 0 ≤ (generate_bad_row d).rsl ∧
       (generate_bad_row d).rsl ≤ 23) := by
  constructor
  · have hs : bad_sensors ⟨1/2, 0, -100, 0, -100, 0, -100, 0⟩ =
        ((11 : ℚ)/2, 900, 400) := by
      norm_num [bad_sensors, badSensorsType2, uniformSample, normalSample,
        clip, min_def, max_def, MICS5524_CH4_BAD_RANGE]
    refine ⟨⟨1/2, 0, -100, 0, -100, 0, -100, 0⟩, ?_, ?_, ?_, ?_, ?_, ?_, ?_⟩
    · norm_num [ValidBadDraws, Set.mem_Ico]
    · norm_num [bad_subtype]
    · rw [hs]
      norm_num
    · rw [hs]
      norm_num [MQ135_NH3_BAD_RANGE]
    · unfold bad_nh3_norm
      rw [hs]
      norm_num [MQ135_NH3_BAD_RANGE]
    · unfold bad_avg_spoilage bad_nh3_norm bad_co2_norm bad_ch4_norm
      rw [hs]
      norm_num [MQ135_NH3_BAD_RANGE, CO2_BAD_RANGE, MICS5524_CH4_BAD_RANGE]
    · unfold bad_base_rsl bad_avg_spoilage bad_nh3_norm bad_co2_norm
        bad_ch4_norm
      rw [hs]
      norm_num [MQ135_NH3_BAD_RANGE, CO2_BAD_RANGE, MICS5524_CH4_BAD_RANGE]
  · intro d
    exact ⟨(bad_rsl_hours_mem d).1, (bad_rsl_hours_mem d).2⟩
